import Mathlib

/-!
Shallow embedding of the carousel controller of `src/index.tsx`
(market-news-app): the `App` component's state cells and refs, the fetch
result handling of `fetchNews`, the `handleNext` / `handlePrev` navigation
handlers, the touch gesture handlers, and the phase and per-item slot
computations of `renderContent`.

Machine integers do not arise: JavaScript array indices here stay small and
non-negative, so `currentIndex` is a `Nat`; touch coordinates are compared
and subtracted only, so they are embedded as `Int`.
-/

/-- One news item: `NewsArticle` (src/index.tsx lines 5-10). -/
structure NewsArticle where
  headline : String
  summary : String
  date : String
  imageUrl : String
deriving DecidableEq, Repr

/-- The `App` component's state: the four `useState` cells `news`,
`currentIndex`, `loading`, `error` (lines 211-214) and the two gesture refs
`touchStartX`, `touchEndX` (lines 216-217).  A JavaScript `null` in the refs
and in `error` is `Option.none`. -/
structure AppState where
  news : List NewsArticle
  currentIndex : Nat
  loading : Bool
  error : Option String
  touchStartX : Option Int
  touchEndX : Option Int
deriving DecidableEq, Repr

/-- The state at mount: `useState([])`, `useState(0)`, `useState(true)`,
`useState(null)`, `useRef(null)`, `useRef(null)` (lines 211-217). -/
def initialState : AppState :=
  { news := [], currentIndex := 0, loading := true, error := none,
    touchStartX := none, touchEndX := none }

/-- `const swipeThreshold = 50` (line 218). -/
def swipeThreshold : Int := 50

/-- `handleNext` (lines 251-254): no-op on an empty list, else
`currentIndex = (currentIndex + 1) % news.length`. -/
def handleNext (s : AppState) : AppState :=
  if s.news.length = 0 then s
  else { s with currentIndex := (s.currentIndex + 1) % s.news.length }

/-- `handlePrev` (lines 256-259): no-op on an empty list, else
`currentIndex = (currentIndex - 1 + news.length) % news.length`.  The source
computes in JavaScript numbers where `currentIndex - 1` may be `-1`; since
`currentIndex >= 0` and `news.length >= 1` in this branch, the operand
`currentIndex - 1 + news.length` is non-negative and equals the `Nat`
expression `currentIndex + news.length - 1` used here. -/
def handlePrev (s : AppState) : AppState :=
  if s.news.length = 0 then s
  else { s with currentIndex := (s.currentIndex + s.news.length - 1) % s.news.length }

/-- `handleTouchStart` (lines 261-264): clears the recorded end coordinate
and records the touch's clientX as the start coordinate. -/
def handleTouchStart (x : Int) (s : AppState) : AppState :=
  { s with touchEndX := none, touchStartX := some x }

/-- `handleTouchMove` (lines 266-268): records the latest clientX as the end
coordinate. -/
def handleTouchMove (x : Int) (s : AppState) : AppState :=
  { s with touchEndX := some x }

/-- The reset `touchStartX.current = null; touchEndX.current = null`
performed at the end of a completed `handleTouchEnd` (lines 281-282). -/
def clearTouch (s : AppState) : AppState :=
  { s with touchStartX := none, touchEndX := none }

/-- `handleTouchEnd` (lines 270-283): early return when either recorded
coordinate is `null`; otherwise `distance = touchStartX - touchEndX`,
navigate when `distance > swipeThreshold` (next) or
`distance < -swipeThreshold` (prev), then reset both coordinates. -/
def handleTouchEnd (s : AppState) : AppState :=
  match s.touchStartX, s.touchEndX with
  | some a, some b =>
      let distance := a - b
      clearTouch
        (if distance > swipeThreshold then handleNext s
         else if distance < -swipeThreshold then handlePrev s
         else s)
  | _, _ => s

/-- The error message template of the catch block (line 242):
`Could not fetch market news. Please try again later. (Details: ...)`. -/
def fetchFailureMessage (detail : String) : String :=
  "Could not fetch market news. Please try again later. (Details: " ++ detail ++ ")"

/-- Outcome of the `fetch('/api/generate-news')` call as `fetchNews`
(lines 220-249) distinguishes it:
* `success (some articles)` — a 2xx response whose JSON body is an array;
* `success none` — a 2xx response whose JSON body is not an array
  (the `Array.isArray` check at line 234 fails);
* `httpError status errorMessage` — a non-2xx response, carrying the parsed
  body's `error.message` when present (line 229);
* `networkFailure message` — the fetch (or body parsing) rejects with an
  error carrying `message`. -/
inductive FetchResult where
  | success (body : Option (List NewsArticle))
  | httpError (status : Nat) (errorMessage : Option String)
  | networkFailure (message : String)
deriving DecidableEq, Repr

/-- The state transformation `fetchNews` performs once its promise settles
(lines 220-249): `setLoading(true)` and `setError(null)` ran at the start;
on an array body `setNews(body)`; on a non-array body, a non-2xx status, or
a rejection, `setError` with the message built at line 242 (the thrown
error's message is `errorData.error?.message`, or
`Request failed with status N`, or the format message of line 235); in all
cases `finally` runs `setLoading(false)`. -/
def applyFetch (r : FetchResult) (s : AppState) : AppState :=
  match r with
  | FetchResult.success (some articles) =>
      { s with loading := false, error := none, news := articles }
  | FetchResult.success none =>
      { s with loading := false,
               error := some (fetchFailureMessage
                 ("Received data from server is not in the expected format.")) }
  | FetchResult.httpError status msg =>
      { s with loading := false,
               error := some (fetchFailureMessage
                 (msg.getD ("Request failed with status " ++ toString status))) }
  | FetchResult.networkFailure m =>
      { s with loading := false, error := some (fetchFailureMessage m) }

/-- The phase `renderContent` (lines 285-348) surfaces, in the spec's
vocabulary `Loading | Error | Ready`. -/
inductive RenderPhase where
  | loading
  | error (message : String)
  | ready
deriving DecidableEq, Repr

/-- The branch structure of `renderContent` (lines 285-311): the loading
view while `loading`; an `error-container` with the stored message when
`error` is set; an `error-container` with the fixed message
`No news articles found at the moment.` when `news` is empty (lines
303-309) — a human-readable error display, `Error` in the spec's phase
model; otherwise the carousel (`Ready`). -/
def renderPhase (s : AppState) : RenderPhase :=
  if s.loading then RenderPhase.loading
  else
    match s.error with
    | some m => RenderPhase.error m
    | none =>
        if s.news.length = 0 then
          RenderPhase.error ("No news articles found at the moment.")
        else RenderPhase.ready

/-- The card status of `renderContent`'s map (lines 319-333). -/
inductive Slot where
  | prev
  | active
  | next
deriving DecidableEq, Repr

/-- The circular-predecessor index `(currentIndex - 1 + news.length) %
news.length` tested at line 323, as a `Nat` expression (the operand is
non-negative, see `handlePrev`). -/
def prevIdx (n i : Nat) : Nat := (i + n - 1) % n

/-- The circular-successor index `(currentIndex + 1) % news.length` tested
at line 325. -/
def nextIdx (n i : Nat) : Nat := (i + 1) % n

/-- The per-item status chain of lines 320-327: `active` when
`index === currentIndex`, else `prev` when `index` is the circular
predecessor, else `next` when `index` is the circular successor, else
`undefined` (the card is not rendered, line 332). -/
def slotOf (n currentIndex index : Nat) : Option Slot :=
  if index = currentIndex then some Slot.active
  else if index = prevIdx n currentIndex then some Slot.prev
  else if index = nextIdx n currentIndex then some Slot.next
  else none

/-- A navigation call, for sequencing `handleNext` / `handlePrev`. -/
inductive NavOp where
  | next
  | prev
deriving DecidableEq, Repr

/-- Apply one navigation call. -/
def applyOp (op : NavOp) (s : AppState) : AppState :=
  match op with
  | NavOp.next => handleNext s
  | NavOp.prev => handlePrev s

/-- Apply a finite sequence of navigation calls, first element first. -/
def applyOps (ops : List NavOp) (s : AppState) : AppState :=
  match ops with
  | [] => s
  | op :: rest => applyOps rest (applyOp op s)

/-- A concrete article for witness states. -/
def sampleArticle : NewsArticle :=
  { headline := "h", summary := "s", date := "2024-01-01", imageUrl := "u" }

/-- A post-fetch state holding `articles` at index `i`, for witness states. -/
def stateAt (articles : List NewsArticle) (i : Nat) : AppState :=
  { news := articles, currentIndex := i, loading := false, error := none,
    touchStartX := none, touchEndX := none }

/-- A list of three distinct-free sample articles, for witness states. -/
def threeItems : List NewsArticle := [sampleArticle, sampleArticle, sampleArticle]

/-! ### Helper lemmas -/

theorem handleNext_of_ne (s : AppState) (h : s.news.length ≠ 0) :
    handleNext s = { s with currentIndex := (s.currentIndex + 1) % s.news.length } := by
  simp [handleNext, h]

theorem handlePrev_of_ne (s : AppState) (h : s.news.length ≠ 0) :
    handlePrev s =
      { s with currentIndex := (s.currentIndex + s.news.length - 1) % s.news.length } := by
  simp [handlePrev, h]

theorem handleNext_frame (s : AppState) :
    (handleNext s).news = s.news ∧ (handleNext s).loading = s.loading ∧
    (handleNext s).error = s.error ∧ (handleNext s).touchStartX = s.touchStartX ∧
    (handleNext s).touchEndX = s.touchEndX := by
  unfold handleNext; split <;> exact ⟨rfl, rfl, rfl, rfl, rfl⟩

theorem handlePrev_frame (s : AppState) :
    (handlePrev s).news = s.news ∧ (handlePrev s).loading = s.loading ∧
    (handlePrev s).error = s.error ∧ (handlePrev s).touchStartX = s.touchStartX ∧
    (handlePrev s).touchEndX = s.touchEndX := by
  unfold handlePrev; split <;> exact ⟨rfl, rfl, rfl, rfl, rfl⟩

theorem applyOp_frame (op : NavOp) (s : AppState) :
    (applyOp op s).news = s.news ∧ (applyOp op s).loading = s.loading ∧
    (applyOp op s).error = s.error := by
  cases op
  · exact ⟨(handleNext_frame s).1, (handleNext_frame s).2.1, (handleNext_frame s).2.2.1⟩
  · exact ⟨(handlePrev_frame s).1, (handlePrev_frame s).2.1, (handlePrev_frame s).2.2.1⟩

theorem applyOp_index_lt (op : NavOp) (s : AppState)
    (h : s.currentIndex < s.news.length) :
    (applyOp op s).currentIndex < (applyOp op s).news.length := by
  have hn : s.news.length ≠ 0 := by omega
  cases op
  · rw [applyOp, handleNext_of_ne s hn]
    exact Nat.mod_lt _ (by omega)
  · rw [applyOp, handlePrev_of_ne s hn]
    exact Nat.mod_lt _ (by omega)

theorem applyOps_news (ops : List NavOp) (s : AppState) :
    (applyOps ops s).news = s.news := by
  induction ops generalizing s with
  | nil => rfl
  | cons op rest ih =>
      rw [applyOps, ih (applyOp op s), (applyOp_frame op s).1]

theorem applyOps_index_lt (ops : List NavOp) (s : AppState)
    (h : s.currentIndex < s.news.length) :
    (applyOps ops s).currentIndex < (applyOps ops s).news.length := by
  induction ops generalizing s with
  | nil => exact h
  | cons op rest ih => exact ih (applyOp op s) (applyOp_index_lt op s h)

theorem next_prev_idx (n i : Nat) (h : i < n) :
    ((i + 1) % n + n - 1) % n = i := by
  have h2 : (i + 1) % n + n - 1 = (i + 1) % n + (n - 1) := by omega
  rw [h2, Nat.mod_add_mod]
  have h3 : i + 1 + (n - 1) = i + n := by omega
  rw [h3, Nat.add_mod_right, Nat.mod_eq_of_lt h]

theorem prev_next_idx (n i : Nat) (h : i < n) :
    ((i + n - 1) % n + 1) % n = i := by
  rw [Nat.mod_add_mod]
  have h3 : i + n - 1 + 1 = i + n := by omega
  rw [h3, Nat.add_mod_right, Nat.mod_eq_of_lt h]

/-! ### The claims -/

/-- C2: for every state with a non-empty item list of length `n` and index
`i`, `handleNext` sets the index to `(i + 1) % n` and `handlePrev` sets it
to `(i - 1 + n) % n` (stated both as the `Nat` expression of the embedding
and as the claim's integer formula), leaving everything else unchanged;
on an empty item list both handlers are no-ops. -/
theorem c2_next_prev_formulas (s : AppState) :
    (s.news.length ≠ 0 →
      handleNext s = { s with currentIndex := (s.currentIndex + 1) % s.news.length } ∧
      handlePrev s =
        { s with currentIndex := (s.currentIndex + s.news.length - 1) % s.news.length } ∧
      ((handlePrev s).currentIndex : Int) =
        ((s.currentIndex : Int) - 1 + (s.news.length : Int)) % (s.news.length : Int)) ∧
    (s.news.length = 0 → handleNext s = s ∧ handlePrev s = s) := by
  constructor
  · intro h
    refine ⟨handleNext_of_ne s h, handlePrev_of_ne s h, ?_⟩
    rw [handlePrev_of_ne s h]
    show (((s.currentIndex + s.news.length - 1) % s.news.length : Nat) : Int) = _
    have h1 : 1 ≤ s.currentIndex + s.news.length := by omega
    push_cast [Nat.cast_sub h1]
    congr 1
    ring
  · intro h
    exact ⟨by simp [handleNext, h], by simp [handlePrev, h]⟩

/-- C2 at a concrete state: a three-item list at index 2 wraps to 0 on
`handleNext`, and the empty initial state is untouched by both handlers. -/
theorem c2_next_prev_formulas_witness :
    handleNext (stateAt threeItems 2) = stateAt threeItems 0 ∧
    handleNext initialState = initialState ∧ handlePrev initialState = initialState := by
  refine ⟨?_, ?_, ?_⟩
  · have h := (c2_next_prev_formulas (stateAt threeItems 2)).1 (by decide)
    exact h.1
  · exact ((c2_next_prev_formulas initialState).2 rfl).1
  · exact ((c2_next_prev_formulas initialState).2 rfl).2

/-- C3: on a non-empty item list with the index in range, `handleNext`
followed by `handlePrev` restores the whole state, and `handlePrev`
followed by `handleNext` likewise. -/
theorem c3_round_trip (s : AppState) (h : s.currentIndex < s.news.length) :
    handlePrev (handleNext s) = s ∧ handleNext (handlePrev s) = s := by
  obtain ⟨news, i, l, e, t1, t2⟩ := s
  have h2 : i < news.length := h
  have hn : ¬ news.length = 0 := by omega
  constructor
  · simp only [handleNext, handlePrev, if_neg hn, next_prev_idx _ _ h2]
  · simp only [handleNext, handlePrev, if_neg hn, prev_next_idx _ _ h2]

/-- C3 at a concrete state: a three-item list at index 0 round-trips under
next-then-prev and prev-then-next. -/
theorem c3_round_trip_witness :
    handlePrev (handleNext (stateAt threeItems 0)) = stateAt threeItems 0 ∧
    handleNext (handlePrev (stateAt threeItems 0)) = stateAt threeItems 0 :=
  c3_round_trip (stateAt threeItems 0) (by decide)

/-- C4: on an item list of length at least 1, starting from index 0, every
finite sequence of `handleNext` / `handlePrev` calls leaves `currentIndex`
within `[0, n)` (the lower bound holds because the index is a `Nat`); the
quantification over all sequences covers every prefix, so the bound holds
after each call. -/
theorem c4_index_invariant (ops : List NavOp) (s : AppState)
    (hn : 1 ≤ s.news.length) (h0 : s.currentIndex = 0) :
    (applyOps ops s).currentIndex < s.news.length := by
  have h : s.currentIndex < s.news.length := by omega
  have := applyOps_index_lt ops s h
  rwa [applyOps_news ops s] at this

/-- C5: in a Ready state (list of length `n >= 1`, index `i < n`), the slot
chain of `renderContent` marks the item at `currentIndex` as `active`, and
no other index is marked `active`: exactly one active item. -/
theorem c5_unique_active (n i : Nat) (hn : 1 ≤ n) (hi : i < n) :
    slotOf n i i = some Slot.active ∧
    (∀ j : Nat, slotOf n i j = some Slot.active → j = i) ∧
    ((Finset.range n).filter (fun j => slotOf n i j = some Slot.active)).card = 1 := by
  have hge : 0 < n := hn
  have hact : slotOf n i i = some Slot.active := by simp [slotOf]
  have huniq : ∀ j : Nat, slotOf n i j = some Slot.active → j = i := by
    intro j hj
    by_contra hne
    rw [slotOf, if_neg hne] at hj
    split_ifs at hj <;> simp_all
  refine ⟨hact, huniq, ?_⟩
  rw [Finset.card_eq_one]
  refine ⟨i, Finset.eq_singleton_iff_unique_mem.mpr ⟨?_, ?_⟩⟩
  · exact Finset.mem_filter.mpr ⟨Finset.mem_range.mpr hi, hact⟩
  · intro j hj
    exact huniq j (Finset.mem_filter.mp hj).2

/-- C5 at a concrete state: with three items at index 1, index 1 is the one
active item. -/
theorem c5_unique_active_witness :
    slotOf 3 1 1 = some Slot.active ∧
    (∀ j : Nat, slotOf 3 1 j = some Slot.active → j = 1) ∧
    ((Finset.range 3).filter (fun j => slotOf 3 1 j = some Slot.active)).card = 1 :=
  c5_unique_active 3 1 (by decide) (by decide)

/-- C6 as stated is false on the code: with a single item the status chain
of lines 320-327 assigns the item only `active` (the first matching case);
it is not assigned the `prev` or `next` slot, and with two items no item is
assigned `next`. -/
theorem c6_counterexample :
    slotOf 1 0 0 = some Slot.active ∧
    slotOf 1 0 0 ≠ some Slot.prev ∧
    slotOf 1 0 0 ≠ some Slot.next ∧
    slotOf 2 0 0 ≠ some Slot.next ∧ slotOf 2 0 1 ≠ some Slot.next := by
  decide

/-- C6 amended: when the list has length 1, the circular-predecessor and
circular-successor index computations both select the single item, whose
assigned status is `active` (the first matching case of the chain); when the
list has length 2, the predecessor and successor computations both select
the single non-active item, whose assigned status is `prev` (the earlier of
the two matching cases), while the item at `currentIndex` is `active`. -/
theorem c6_amended_coincidence :
    (prevIdx 1 0 = 0 ∧ nextIdx 1 0 = 0 ∧ slotOf 1 0 0 = some Slot.active) ∧
    (prevIdx 2 0 = 1 ∧ nextIdx 2 0 = 1 ∧
      slotOf 2 0 1 = some Slot.prev ∧ slotOf 2 0 0 = some Slot.active) ∧
    (prevIdx 2 1 = 0 ∧ nextIdx 2 1 = 0 ∧
      slotOf 2 1 0 = some Slot.prev ∧ slotOf 2 1 1 = some Slot.active) := by
  decide

/-- C4 at a concrete state: five calls on a two-item list starting at index
0 keep the index below 2. -/
theorem c4_index_invariant_witness :
    (applyOps [NavOp.prev, NavOp.prev, NavOp.next, NavOp.prev, NavOp.next]
      (stateAt [sampleArticle, sampleArticle] 0)).currentIndex < 2 :=
  c4_index_invariant [NavOp.prev, NavOp.prev, NavOp.next, NavOp.prev, NavOp.next]
    (stateAt [sampleArticle, sampleArticle] 0) (by decide) rfl

/-- A state mid-gesture: two items at index 0, start coordinate 100 and end
coordinate 30 recorded, for witness states. -/
def c7state : AppState :=
  { stateAt [sampleArticle, sampleArticle] 0 with touchStartX := some 100, touchEndX := some 30 }

/-- C7: when both coordinates are recorded, `handleTouchEnd` with
`distance = start - end` navigates forward when `distance > swipeThreshold`,
backward when `distance < -swipeThreshold`, and otherwise — including
`distance` exactly equal to `swipeThreshold` or to `-swipeThreshold` — does
not navigate; in every case it then clears both coordinates. -/
theorem c7_swipe_threshold (s : AppState) (a b : Int)
    (hs : s.touchStartX = some a) (he : s.touchEndX = some b) :
    (a - b > swipeThreshold → handleTouchEnd s = clearTouch (handleNext s)) ∧
    (a - b < -swipeThreshold → handleTouchEnd s = clearTouch (handlePrev s)) ∧
    (-swipeThreshold ≤ a - b → a - b ≤ swipeThreshold →
      handleTouchEnd s = clearTouch s ∧
      (handleTouchEnd s).currentIndex = s.currentIndex) := by
  have hte : handleTouchEnd s =
      clearTouch (if a - b > swipeThreshold then handleNext s
        else if a - b < -swipeThreshold then handlePrev s else s) := by
    simp [handleTouchEnd, hs, he]
  refine ⟨?_, ?_, ?_⟩
  · intro hgt
    rw [hte, if_pos hgt]
  · intro hlt
    have hlt2 : a - b < -(50 : Int) := hlt
    rw [hte, if_neg (show ¬ a - b > swipeThreshold by
      simp only [swipeThreshold]; omega), if_pos hlt]
  · intro h1 h2
    have h3 : -(50 : Int) ≤ a - b := h1
    have h4 : a - b ≤ (50 : Int) := h2
    have heq : handleTouchEnd s = clearTouch s := by
      rw [hte, if_neg (show ¬ a - b > swipeThreshold by
        simp only [swipeThreshold]; omega),
        if_neg (show ¬ a - b < -swipeThreshold by
        simp only [swipeThreshold]; omega)]
    refine ⟨heq, ?_⟩
    rw [heq]
    rfl

/-- C7 at a concrete state: a recorded travel of 70 pixels (100 to 30)
exceeds the 50-pixel threshold and navigates forward. -/
theorem c7_swipe_threshold_witness :
    handleTouchEnd c7state = clearTouch (handleNext c7state) :=
  (c7_swipe_threshold c7state 100 30 rfl rfl).1 (by decide)

/-- A state whose gesture recorded a start coordinate but no end coordinate
(a touch that never moved). -/
def c8state : AppState := { stateAt [] 0 with touchStartX := some 100 }

/-- C8 as stated is false on the code: an interaction-end event that runs
with no recorded end coordinate returns early (line 271) and does not reset
the still-recorded start coordinate. -/
theorem c8_counterexample :
    handleTouchEnd c8state = c8state ∧ c8state.touchStartX = some 100 :=
  ⟨rfl, rfl⟩

/-- C8 amended: after every interaction-end event that runs with both
coordinates recorded, both are reset to empty regardless of whether
navigation occurred; when either coordinate is absent the handler leaves
the state untouched, and a subsequent interaction still starts clean
because interaction-start records a fresh start coordinate and clears the
end coordinate. -/
theorem c8_amended_reset (s : AppState) (a b : Int)
    (hs : s.touchStartX = some a) (he : s.touchEndX = some b) :
    (handleTouchEnd s).touchStartX = none ∧ (handleTouchEnd s).touchEndX = none ∧
    (∀ x : Int, ∀ t : AppState,
      (handleTouchStart x t).touchStartX = some x ∧
      (handleTouchStart x t).touchEndX = none) := by
  refine ⟨?_, ?_, fun x t => ⟨rfl, rfl⟩⟩ <;>
    simp [handleTouchEnd, hs, he, clearTouch]

/-- A state mid-gesture with both coordinates recorded, for witness
states. -/
def c8state2 : AppState :=
  { stateAt threeItems 0 with touchStartX := some 10, touchEndX := some 5 }

/-- C8 amended, at a concrete state: both coordinates are cleared after a
completed 5-pixel gesture, and interaction-start records a fresh start. -/
theorem c8_amended_reset_witness :
    (handleTouchEnd c8state2).touchStartX = none ∧
    (handleTouchEnd c8state2).touchEndX = none ∧
    (∀ x : Int, ∀ t : AppState,
      (handleTouchStart x t).touchStartX = some x ∧
      (handleTouchStart x t).touchEndX = none) :=
  c8_amended_reset c8state2 10 5 rfl rfl

theorem handleTouchEnd_frame (s : AppState) :
    (handleTouchEnd s).news = s.news ∧ (handleTouchEnd s).loading = s.loading ∧
    (handleTouchEnd s).error = s.error := by
  obtain ⟨news, i, l, e, t1, t2⟩ := s
  cases t1 <;> cases t2 <;> try exact ⟨rfl, rfl, rfl⟩
  simp only [handleTouchEnd]
  split_ifs with h1 h2
  · exact ⟨(handleNext_frame _).1, (handleNext_frame _).2.1, (handleNext_frame _).2.2.1⟩
  · exact ⟨(handlePrev_frame _).1, (handlePrev_frame _).2.1, (handlePrev_frame _).2.2.1⟩
  · exact ⟨rfl, rfl, rfl⟩

/-- C9: every navigation operation — `handleNext`, `handlePrev`, or a
completed gesture through `handleTouchEnd` — leaves the item list, the
loading flag, the error message, and hence the stored item contents
unchanged; `handleNext` and `handlePrev` also leave the gesture coordinates
unchanged, so they mutate `currentIndex` alone. -/
theorem c9_navigation_frame (s : AppState) :
    (handleNext s).news = s.news ∧ (handleNext s).loading = s.loading ∧
    (handleNext s).error = s.error ∧
    (handleNext s).touchStartX = s.touchStartX ∧
    (handleNext s).touchEndX = s.touchEndX ∧
    (handlePrev s).news = s.news ∧ (handlePrev s).loading = s.loading ∧
    (handlePrev s).error = s.error ∧
    (handlePrev s).touchStartX = s.touchStartX ∧
    (handlePrev s).touchEndX = s.touchEndX ∧
    (handleTouchEnd s).news = s.news ∧ (handleTouchEnd s).loading = s.loading ∧
    (handleTouchEnd s).error = s.error := by
  obtain ⟨hn1, hn2, hn3, hn4, hn5⟩ := handleNext_frame s
  obtain ⟨hp1, hp2, hp3, hp4, hp5⟩ := handlePrev_frame s
  obtain ⟨ht1, ht2, ht3⟩ := handleTouchEnd_frame s
  exact ⟨hn1, hn2, hn3, hn4, hn5, hp1, hp2, hp3, hp4, hp5, ht1, ht2, ht3⟩

/-- A state whose gesture recorded a start coordinate but no end
coordinate, for the early-return witness. -/
def c10state : AppState := { stateAt threeItems 0 with touchStartX := some 42 }

/-- C10: when either recorded coordinate is absent, `handleTouchEnd`
returns early and the entire state — including any still-recorded start
coordinate — is unchanged. -/
theorem c10_early_return (s : AppState)
    (h : s.touchStartX = none ∨ s.touchEndX = none) :
    handleTouchEnd s = s := by
  obtain ⟨news, i, l, e, t1, t2⟩ := s
  cases t1 with
  | none => rfl
  | some a =>
    cases t2 with
    | none => rfl
    | some b => rcases h with h | h <;> simp at h

/-- C10 at a concrete state: a touch that started (at coordinate 42) but
never moved leaves the whole state, start coordinate included, unchanged. -/
theorem c10_early_return_witness : handleTouchEnd c10state = c10state :=
  c10_early_return c10state (Or.inr rfl)

/-- A state whose item list is empty, with every other field arbitrary. -/
def emptyNewsState (i : Nat) (l : Bool) (e : Option String)
    (t1 t2 : Option Int) : AppState :=
  { news := [], currentIndex := i, loading := l, error := e,
    touchStartX := t1, touchEndX := t2 }

/-- C1: a fetch that resolves with an empty array, resolves with a
non-array body, fails with a non-2xx status (with or without a parsed
`error.message`), or rejects, leaves the controller surfacing an error
phase with a human-readable message; and no state with an empty item list
ever surfaces the Ready phase. -/
theorem c1_failure_phase (s : AppState) (status : Nat) (m : String) (i : Nat)
    (l : Bool) (e : Option String) (t1 t2 : Option Int) :
    renderPhase (applyFetch (FetchResult.success (some [])) s) =
      RenderPhase.error ("No news articles found at the moment.") ∧
    renderPhase (applyFetch (FetchResult.success none) s) =
      RenderPhase.error (fetchFailureMessage
        ("Received data from server is not in the expected format.")) ∧
    renderPhase (applyFetch (FetchResult.httpError status (some m)) s) =
      RenderPhase.error (fetchFailureMessage m) ∧
    renderPhase (applyFetch (FetchResult.httpError status none) s) =
      RenderPhase.error (fetchFailureMessage
        ("Request failed with status " ++ toString status)) ∧
    renderPhase (applyFetch (FetchResult.networkFailure m) s) =
      RenderPhase.error (fetchFailureMessage m) ∧
    renderPhase (emptyNewsState i l e t1 t2) ≠ RenderPhase.ready := by
  refine ⟨rfl, rfl, rfl, rfl, rfl, ?_⟩
  cases l <;> cases e <;> simp [renderPhase, emptyNewsState]
